import Mathlib

/-!
Shallow embedding of the concrnt node-client request/caching engine
(src/api.ts, src/auth/main.ts, src/cache/main.ts, src/util.ts).

Conventions:
- timestamps are milliseconds since epoch, modelled as natural numbers;
  ages computed by subtraction are integers (matching JS number subtraction);
- the KVS is modelled as a function from keys to optional timestamped
  entries; the liveness markers live under separate keys prefixed by
  the offline marker prefix, disjoint from cache keys, so the liveness
  store is kept as a separate map;
- JS promises/awaits relevant to the verified claims are modelled either
  as pure request/response functions (single call) or as explicit
  interleaving state machines (concurrent calls), with one scheduler step
  per atomic block between awaits;
- response bodies are already-parsed JSON values; body text of error
  messages is elided.
-/

namespace NodeClient

/-- A KVS entry as in src/cache/main.ts: data (null allowed, recording a
negative entry) plus a millisecond timestamp stamped by set. -/
structure Entry (α : Type) where
  data : Option α
  timestamp : Nat
deriving DecidableEq

/-- The key-value store backing the cache (InMemoryKVS semantics). -/
def Cache (α : Type) : Type := String → Option (Entry α)

/-- KVS.set: overwrite the entry under a key, stamping the current time. -/
def setEntry {α : Type} (c : Cache α) (k : String) (v : Option α) (now : Nat) : Cache α :=
  fun k2 => if k2 = k then some ⟨v, now⟩ else c k2

/-- KVS.invalidate: remove the entry under a key. -/
def invalidateEntry {α : Type} (c : Cache α) (k : String) : Cache α :=
  fun k2 => if k2 = k then none else c k2

/-! ## Host liveness tracker (Api.isHostOnline / markHostOnline / markHostOffline) -/

/-- The liveness entry stored under the offline marker key of a host:
data is the fail count, timestamp the time of the last markHostOffline. -/
structure OffEntry where
  failCount : Nat
  timestamp : Nat
deriving DecidableEq

/-- Liveness store: host to optional liveness entry. -/
def OffStore : Type := String → Option OffEntry

/-- The back-off threshold 500 * 1.5 ^ min(failCount, 15) from
Api.isHostOnline, computed exactly over the rationals (the JS float
computation is exact for these values). -/
def offlineThreshold (failCount : Nat) : ℚ :=
  500 * (3 / 2 : ℚ) ^ (min failCount 15)

/-- Api.isHostOnline: online iff the liveness entry is absent or its age
has reached the back-off threshold. -/
def isHostOnline (off : OffStore) (now : Nat) (host : String) : Bool :=
  match off host with
  | none => true
  | some e => !(decide ((((now : ℤ) - (e.timestamp : ℤ) : ℤ) : ℚ) < offlineThreshold e.failCount))

/-- Api.markHostOnline: invalidate the liveness entry. -/
def markHostOnline (off : OffStore) (host : String) : OffStore :=
  fun h => if h = host then none else off h

/-- Api.markHostOffline: set the liveness entry to previous fail count
(defaulting to 0) plus one, stamped now. -/
def markHostOffline (off : OffStore) (now : Nat) (host : String) : OffStore :=
  let prev := ((off host).map OffEntry.failCount).getD 0
  fun h => if h = host then some ⟨prev + 1, now⟩ else off h

/-! ## Fetch options and configuration (Api / FetchOptions in src/api.ts) -/

/-- The cache modes of FetchOptions.cache. -/
inductive CacheMode
  | forceCache
  | noCache
  | bestEffort
  | negativeOnly
deriving DecidableEq

/-- FetchOptions: cache mode, TTL in ms, auth opt-out, per-request timeout.
Absent fields are none (JS undefined). -/
structure FetchOpts where
  cache : Option CacheMode := none
  ttl : Option Nat := none
  noAuth : Bool := false
  timeoutms : Option Nat := none
deriving DecidableEq

/-- The Api instance fields used by the cache layer: defaultCacheTTL
(none models the initial Infinity) and negativeCacheTTL (initially 300). -/
structure ApiCfg where
  defaultCacheTTL : Option Nat := none
  negativeCacheTTL : Nat := 300
deriving DecidableEq

/-- The JSON envelope ApiResponse with content, status and error fields. -/
structure ApiResp (α : Type) where
  content : α
  status : String
  error : String
deriving DecidableEq

/-- What the underlying fetch yields: an HTTP response with a status code
and (for 2xx JSON routes) a parsed envelope body, or a network-level
error with its cause code. -/
inductive NetResult (α : Type)
  | http (statusCode : Nat) (body : ApiResp α)
  | netError (causeCode : String)
deriving DecidableEq

/-- res.ok of the fetch API: status in the 2xx range. -/
def resOk (status : Nat) : Bool := 200 ≤ status && status ≤ 299

/-- The error cause codes that mark a host offline in the catch handlers. -/
def offlineCodes : List String := ["ENOTFOUND", "ECONNREFUSED"]

/-- The error kinds thrown by the cached read path (messages elided). -/
inductive FetchErr
  | domainOffline (host : String)
  | notFound
  | permission
  | transport (status : Nat)
  | application (error : String)
  | cacheMiss
  | network (causeCode : String)
deriving DecidableEq

/-! ## Request timeout (fetchWithTimeout in src/util.ts) -/

/-- The default timeout of fetchWithTimeout. -/
def defaultTimeoutMs : Nat := 5 * 1000

/-- An outbound HTTPS request together with the cooperative-abort deadline
armed by fetchWithTimeout (the AbortController timer). -/
structure OutRequest where
  url : String
  abortAfterMs : Nat
deriving DecidableEq

/-- fetchWithTimeout applied to an optional caller timeout: the abort
timer is the caller value when provided, else the 5000 ms default. -/
def mkTimedRequest (url : String) (timeoutms : Option Nat) : OutRequest :=
  ⟨url, timeoutms.getD defaultTimeoutMs⟩

/-! ## Cache lookup phase of Api.fetchWithCache (src/api.ts lines 278-299) -/

/-- Outcome of the cache-consultation phase: serve a (possibly negative)
entry without network, throw the force-cache miss, or fall through to the
network fetch retaining the looked-up value for stale-while-revalidate. -/
inductive LookupResult (α : Type)
  | serve (v : Option α)
  | cacheMissThrow
  | fetch (cached : Option α)
deriving DecidableEq

/-- The TTL applied to an entry: positive entries use opts.TTL, defaulting
to defaultCacheTTL; negative entries use negativeCacheTTL. -/
def ttlFor {α : Type} (cfg : ApiCfg) (opts : FetchOpts) (d : Option α) : Option Nat :=
  match d with
  | some _ => match opts.ttl with
      | some t => some t
      | none => cfg.defaultCacheTTL
  | none => some cfg.negativeCacheTTL

/-- age < ttl, with none modelling the Infinity TTL. -/
def ageLt (age : ℤ) : Option Nat → Bool
  | none => true
  | some t => decide (age < (t : ℤ))

/-- The cache-consultation phase of fetchWithCache: skip on no-cache;
serve a fresh entry unless it is a negative entry under best-effort;
throw on force-cache without a fresh hit; otherwise fall through to the
network with the retained cached value. -/
def cacheLookup {α : Type} (cfg : ApiCfg) (opts : FetchOpts) (c : Cache α)
    (key : String) (now : Nat) : LookupResult α :=
  let after : Option α → LookupResult α := fun cached =>
    if opts.cache = some CacheMode.forceCache then .cacheMissThrow else .fetch cached
  if opts.cache = some CacheMode.noCache then after none
  else
    match c key with
    | none => after none
    | some e =>
      let age : ℤ := (now : ℤ) - (e.timestamp : ℤ)
      if ageLt age (ttlFor cfg opts e.data) then
        if opts.cache = some CacheMode.bestEffort ∧ e.data.isNone = true then after e.data
        else .serve e.data
      else after e.data

/-! ## Network phase of Api.fetchWithCache (src/api.ts lines 301-387) -/

/-- Effect of the network phase of one fetchWithCache call: the settled
result (ok none records a 404 turned into a negative entry), the updated
cache and liveness stores, whether a network request was issued, and the
issued request with its abort deadline. -/
structure NetOutcome (α : Type) where
  result : Except FetchErr (Option α)
  cache : Cache α
  off : OffStore
  networkCalled : Bool
  request : Option OutRequest

/-- The fetchNetwork closure of fetchWithCache for a single call (the
in-flight map is modelled separately for the concurrency claims): gate on
isHostOnline, issue the timed request, then classify the response in the
source order: 403, then 502/503/504 (mark offline), then non-ok with 404
writing a negative entry unconditionally, then mark online, then the
envelope status check, then the cache write guarded by negative-only.
Network errors with an offline cause code mark the host offline. -/
def fetchNetworkModel {α : Type} (_cfg : ApiCfg) (opts : FetchOpts)
    (host path key : String) (c : Cache α) (off : OffStore) (now : Nat)
    (resp : NetResult α) : NetOutcome α :=
  let url := "https://" ++ host ++ path
  if isHostOnline off now host = false then
    ⟨.error (.domainOffline host), c, off, false, none⟩
  else
    let req := mkTimedRequest url opts.timeoutms
    match resp with
    | .netError code =>
      if code ∈ offlineCodes then
        ⟨.error (.domainOffline host), c, markHostOffline off now host, true, some req⟩
      else
        ⟨.error (.network code), c, off, true, some req⟩
    | .http status body =>
      if status = 403 then
        ⟨.error .permission, c, off, true, some req⟩
      else if status ∈ [502, 503, 504] then
        ⟨.error (.domainOffline host), c, markHostOffline off now host, true, some req⟩
      else if resOk status = false then
        if status = 404 then
          ⟨.ok none, setEntry c key none now, off, true, some req⟩
        else
          ⟨.error (.transport status), c, off, true, some req⟩
      else
        let off2 := markHostOnline off host
        if body.status ≠ "ok" then
          ⟨.error (.application body.error), c, off2, true, some req⟩
        else
          let c2 := if opts.cache = some CacheMode.negativeOnly then c
                    else setEntry c key (some body.content) now
          ⟨.ok (some body.content), c2, off2, true, some req⟩

/-- Result of a whole fetchWithCache call, adding whether the call went
through the stale-while-revalidate branch. -/
structure RunOutcome (α : Type) where
  result : Except FetchErr (Option α)
  cache : Cache α
  off : OffStore
  networkCalled : Bool
  request : Option OutRequest
  swr : Bool

/-- One whole fetchWithCache call against a fixed network response: the
lookup phase, then either serve/throw without network, or run the network
phase; with a retained non-null cached value the caller is answered with
it synchronously while the network effects still apply (swr). -/
def fetchWithCacheRun {α : Type} (cfg : ApiCfg) (opts : FetchOpts)
    (host path key : String) (c : Cache α) (off : OffStore) (now : Nat)
    (resp : NetResult α) : RunOutcome α :=
  match cacheLookup cfg opts c key now with
  | .serve v => ⟨.ok v, c, off, false, none, false⟩
  | .cacheMissThrow => ⟨.error .cacheMiss, c, off, false, none, false⟩
  | .fetch cached =>
    let n := fetchNetworkModel cfg opts host path key c off now resp
    match cached with
    | some v => ⟨.ok (some v), n.cache, n.off, n.networkCalled, n.request, true⟩
    | none => ⟨n.result, n.cache, n.off, n.networkCalled, n.request, false⟩

/-- The null-to-NotFound promotion performed by the typed read helpers
(getEntity, getMessage, ...) on a null fetchWithCache result. -/
def nullToNotFound {α : Type} : Except FetchErr (Option α) → Except FetchErr α
  | .ok (some v) => .ok v
  | .ok none => .error .notFound
  | .error e => .error e

/-- Api.getMessage forces the negative-only cache mode onto the caller
options. -/
def getMessageOpts (opts : FetchOpts) : FetchOpts :=
  { opts with cache := some CacheMode.negativeOnly }

/-- Api.getMessage: fetchWithCache on key message:id and path
/api/v1/message/id with the negative-only override. -/
def getMessageRun {α : Type} (cfg : ApiCfg) (opts : FetchOpts) (host id : String)
    (c : Cache α) (off : OffStore) (now : Nat) (resp : NetResult α) : RunOutcome α :=
  fetchWithCacheRun cfg (getMessageOpts opts) host ("/api/v1/message/" ++ id)
    ("message:" ++ id) c off now resp

/-! ## Api.fetchWithCredential (src/api.ts lines 196-267) -/

/-- Error kinds of the credentialed JSON route. -/
inductive CredErr
  | domainOffline (host : String)
  | notFound
  | permission
  | transport (status : Nat)
  | network (causeCode : String)
deriving DecidableEq

/-- One fetchWithCredential call against a fixed network response:
gate on isHostOnline; classify 403, 404 and 502/503/504 (mark offline),
then any other non-2xx as transport; on 2xx mark the host online and
return the parsed envelope as-is. Offline cause codes mark offline. -/
def fetchWithCredentialModel {α : Type} (host path : String) (off : OffStore)
    (now : Nat) (timeoutms : Option Nat) (resp : NetResult α) :
    Except CredErr (ApiResp α) × OffStore × Option OutRequest :=
  if isHostOnline off now host = false then
    (.error (.domainOffline host), off, none)
  else
    let req := mkTimedRequest ("https://" ++ host ++ path) timeoutms
    match resp with
    | .netError code =>
      if code ∈ offlineCodes then
        (.error (.domainOffline host), markHostOffline off now host, some req)
      else
        (.error (.network code), off, some req)
    | .http status body =>
      if status = 403 then (.error .permission, off, some req)
      else if status = 404 then (.error .notFound, off, some req)
      else if status ∈ [502, 503, 504] then
        (.error (.domainOffline host), markHostOffline off now host, some req)
      else if resOk status = false then (.error (.transport status), off, some req)
      else (.ok body, markHostOnline off host, some req)

/-! ## Api.fetchWithCredentialBlob (src/api.ts lines 122-193) -/

/-- What the underlying fetch yields on the blob route: an HTTP response
with a status code and raw body bytes, or a network-level error. -/
inductive BlobResult
  | http (statusCode : Nat) (blob : List Nat)
  | netError (causeCode : String)
deriving DecidableEq

/-- One fetchWithCredentialBlob call against a fixed network response:
the same gate and classification as the credentialed JSON route, but a
2xx returns the raw body bytes (res.blob()) after marking online. -/
def fetchWithCredentialBlobModel (host path : String) (off : OffStore)
    (now : Nat) (timeoutms : Option Nat) (resp : BlobResult) :
    Except CredErr (List Nat) × OffStore × Option OutRequest :=
  if isHostOnline off now host = false then
    (.error (.domainOffline host), off, none)
  else
    let req := mkTimedRequest ("https://" ++ host ++ path) timeoutms
    match resp with
    | .netError code =>
      if code ∈ offlineCodes then
        (.error (.domainOffline host), markHostOffline off now host, some req)
      else
        (.error (.network code), off, some req)
    | .http status blob =>
      if status = 403 then (.error .permission, off, some req)
      else if status = 404 then (.error .notFound, off, some req)
      else if status ∈ [502, 503, 504] then
        (.error (.domainOffline host), markHostOffline off now host, some req)
      else if resOk status = false then (.error (.transport status), off, some req)
      else (.ok blob, markHostOnline off host, some req)

/-! ## Api.commit (src/api.ts lines 716-750) -/

/-- The mutable fields of a document record that commit touches; every
other field is opaque payload. -/
structure CommitDoc where
  signer : Option String := none
  keyID : Option String := none
  payload : String := ""
deriving DecidableEq

/-- The identity data of an auth provider seen by commit: getCCID and
getCKID (none for the master-key provider). -/
structure ProviderIds where
  ccid : String
  ckid : Option String
deriving DecidableEq

/-- JS truthiness of the optional ckid string guarding the keyID write. -/
def truthy : Option String → Bool
  | none => false
  | some s => s ≠ ""

/-- The document mutation of commit: signer is overwritten with the
provider CCID; keyID is overwritten with the CKID only when it is truthy,
and is left untouched otherwise. -/
def commitDoc (p : ProviderIds) (d : CommitDoc) : CommitDoc :=
  let d1 := { d with signer := some p.ccid }
  if truthy p.ckid then { d1 with keyID := p.ckid } else d1

/-- The POST body of commit: the serialized document and its signature. -/
structure CommitRequest where
  document : String
  signature : String
deriving DecidableEq

/-- commit builds the request from the mutated document: the serialized
text is computed once and the signature is authProvider.sign applied to
exactly that text. serialize stands for JSON.stringify and sign for the
provider signature (both opaque to the pipeline). -/
def commitRequest (serialize : CommitDoc → String) (sign : String → String)
    (p : ProviderIds) (d : CommitDoc) : CommitRequest :=
  let text := serialize (commitDoc p d)
  ⟨text, sign text⟩

/-! ## Passport state machine (MasterKeyAuthProvider / SubKeyAuthProvider
getHeaders and getPassport, src/auth/main.ts lines 52-86) -/

/-- Program counter of one getHeaders call with respect to the passport,
with the token minting (synchronous) folded into the first step:
entered and about to read this.passport; suspended on the passport HTTP
request it launched; or finished with the passport it will return. -/
inductive PassPC
  | start
  | awaitFetch (r : Nat)
  | done (passport : String)
deriving DecidableEq

/-- Shared provider state plus the pool of concurrent getHeaders calls:
the memoized passport value (a plain string, written only by a response
handler), the outstanding passport HTTP requests, and the total number of
passport endpoint hits. -/
structure PassConf where
  tasks : List PassPC
  passport : Option String
  pending : List Nat
  hits : Nat
deriving DecidableEq

/-- Scheduler actions: run one atomic block of a getHeaders call, or
deliver the response of an outstanding passport request. -/
inductive PassAct
  | run (i : Nat)
  | deliver (r : Nat) (content : String)
deriving DecidableEq

/-- One step: a call at start returns the memoized passport only when it
is truthy (the source tests the string with a JS falsiness check, so an
unset passport and an empty-string passport alike send the call into
getPassport); a call entering getPassport synchronously launches its own
passport request (there is no shared in-flight future); a delivered
response writes this.passport and resumes the call awaiting it. -/
def passStep (c : PassConf) : PassAct → PassConf
  | .run i =>
    match c.tasks[i]? with
    | some .start =>
      match c.passport with
      | some p =>
        if p ≠ "" then { c with tasks := c.tasks.set i (.done p) }
        else
          { c with
            tasks := c.tasks.set i (.awaitFetch c.hits),
            pending := c.pending ++ [c.hits],
            hits := c.hits + 1 }
      | none =>
        { c with
          tasks := c.tasks.set i (.awaitFetch c.hits),
          pending := c.pending ++ [c.hits],
          hits := c.hits + 1 }
    | _ => c
  | .deliver r content =>
    if r ∈ c.pending then
      { tasks := c.tasks.map (fun t => if t = .awaitFetch r then .done content else t),
        passport := some content,
        pending := c.pending.erase r,
        hits := c.hits }
    else c

/-- Run a schedule of actions. -/
def passRun (c : PassConf) (acts : List PassAct) : PassConf :=
  acts.foldl passStep c

/-- n concurrent getHeaders calls on a fresh provider. -/
def passInit (n : Nat) : PassConf :=
  ⟨List.replicate n .start, none, [], 0⟩

/-! ## In-flight request coalescing (Api.fetchWithCache, src/api.ts lines
309-311 and 378-386) -/

/-- Program counter of one fetchWithCache network phase for a fixed cache
key, cut at the await between the in-flight check and the registration:
about to check the in-flight map; resumed after the auth-header await and
about to launch the request and register it; joined an existing pending
request; or owning the request it launched. -/
inductive CoalPC
  | checkInflight
  | launchReady
  | joined (r : Nat)
  | owner (r : Nat)
deriving DecidableEq

/-- Shared state for one cache key: the calls in progress, the registered
in-flight entry, the launched and unanswered network requests, and the
id counter. -/
structure CoalConf where
  tasks : List CoalPC
  inflight : Option Nat
  pending : List Nat
  nextId : Nat
deriving DecidableEq

/-- Scheduler actions: run one atomic block of a call, or deliver the
response of request r (running the finally handler that deletes the
in-flight entry populated by that request). -/
inductive CoalAct
  | run (i : Nat)
  | deliver (r : Nat)
deriving DecidableEq

/-- One step: the in-flight check joins the registered request if one
exists and otherwise proceeds into the auth-header await; the resumed
call launches the network request and registers it atomically; a
delivered response settles the request and its finally deletes the
key's in-flight entry unconditionally (even one that a later call
overwrote). -/
def coalStep (c : CoalConf) : CoalAct → CoalConf
  | .run i =>
    match c.tasks[i]? with
    | some .checkInflight =>
      match c.inflight with
      | some r => { c with tasks := c.tasks.set i (.joined r) }
      | none => { c with tasks := c.tasks.set i .launchReady }
    | some .launchReady =>
      { tasks := c.tasks.set i (.owner c.nextId),
        inflight := some c.nextId,
        pending := c.pending ++ [c.nextId],
        nextId := c.nextId + 1 }
    | _ => c
  | .deliver r =>
    { c with
      pending := c.pending.erase r,
      inflight := none }

/-- Run a schedule of actions. -/
def coalRun (c : CoalConf) (acts : List CoalAct) : CoalConf :=
  acts.foldl coalStep c

/-- n concurrent fetchWithCache calls for the same key, all past the cache
lookup and the liveness gate. -/
def coalInit (n : Nat) : CoalConf :=
  ⟨List.replicate n .checkInflight, none, [], 0⟩

/-! ## Realtime socket (Socket in src/cache/main.ts) -/

/-- Socket subscriptions: an insertion-ordered map from timeline id to the
set of registered listener callbacks (callbacks named by numbers). -/
structure SockState where
  subscriptions : List (String × List Nat)
deriving DecidableEq

/-- The keys of the subscriptions map, in insertion order. -/
def subKeys (s : SockState) : List String := s.subscriptions.map Prod.fst

/-- Client-to-server frames. -/
inductive Frame
  | listen (channels : List String)
  | unlisten (channels : List String)
  | heartbeat
  | ping
deriving DecidableEq

/-- Events driving the socket: the connection reporting open, or the
listen/unlisten listener-management calls. -/
inductive SockEvent
  | opened
  | listenCall (ts : List String) (cb : Nat)
  | unlistenCall (ts : List String) (cb : Nat)
deriving DecidableEq

/-- Add a callback to a topic: create the topic entry (appended, as a JS
Map insertion) when absent, then add the callback to its set. -/
def addSub (subs : List (String × List Nat)) (t : String) (cb : Nat) :
    List (String × List Nat) :=
  if (subs.lookup t).isSome then
    subs.map (fun e => if e.1 = t then (e.1, if cb ∈ e.2 then e.2 else e.2 ++ [cb]) else e)
  else
    subs ++ [(t, [cb])]

/-- Remove a callback from a topic, dropping the topic when its set
becomes empty. -/
def removeSub (subs : List (String × List Nat)) (t : String) (cb : Nat) :
    List (String × List Nat) :=
  subs.filterMap (fun e =>
    if e.1 = t then
      let cbs := e.2.erase cb
      if cbs = [] then none else some (e.1, cbs)
    else some e)

/-- One socket transition, returning the frames sent: onopen sends the
single listen frame carrying exactly the current subscription keys;
listen adds the callback to every topic and sends a refreshed listen
frame when the key set grew; unlisten removes it and sends a refreshed
unlisten frame when the key set shrank. -/
def sockStep (s : SockState) : SockEvent → SockState × List Frame
  | .opened => (s, [.listen (subKeys s)])
  | .listenCall ts cb =>
    let before := subKeys s
    let s2 : SockState := ⟨ts.foldl (fun subs t => addSub subs t cb) s.subscriptions⟩
    (s2, if before.length < (subKeys s2).length then [.listen (subKeys s2)] else [])
  | .unlistenCall ts cb =>
    let before := subKeys s
    let s2 : SockState := ⟨ts.foldl (fun subs t => removeSub subs t cb) s.subscriptions⟩
    (s2, if (subKeys s2).length < before.length then [.unlisten (subKeys s2)] else [])

/-- Run the socket over an event sequence, concatenating sent frames. -/
def sockRun (s : SockState) (evs : List SockEvent) : SockState × List Frame :=
  evs.foldl (fun acc e => ((sockStep acc.1 e).1, acc.2 ++ (sockStep acc.1 e).2)) (s, [])

/-! ## Helper lemmas -/

/-- An online host never blocks the network phase: some request is issued. -/
theorem fetchNetworkModel_online_networkCalled {α : Type} (cfg : ApiCfg)
    (opts : FetchOpts) (host path key : String) (c : Cache α) (off : OffStore)
    (now : Nat) (resp : NetResult α)
    (hon : isHostOnline off now host = true) :
    (fetchNetworkModel cfg opts host path key c off now resp).networkCalled = true := by
  cases resp with
  | netError code =>
    simp only [fetchNetworkModel, hon]
    split
    · simp_all
    · split <;> rfl
  | http status body =>
    simp only [fetchNetworkModel, hon]
    split
    · simp_all
    · split_ifs <;> rfl

/-! ## C4: liveness tracker -/

/-- C4: after markHostOffline (which stores previous fail count + 1), the
host reads offline exactly while the entry age is below
500 * 1.5 ^ min(failCount, 15) ms; an absent entry (in particular after
markHostOnline) reads online; and while offline, every fetch-engine
route — the cached route, the credentialed JSON route and the
credentialed blob route — fails immediately with DomainOffline, issuing
no request and leaving every store untouched. -/
theorem claim_C4_liveness (off : OffStore) (host : String) (t0 now : Nat) :
    (isHostOnline (markHostOffline off t0 host) now host = false ↔
      ((((now : ℤ) - (t0 : ℤ) : ℤ) : ℚ) <
        offlineThreshold (((off host).map OffEntry.failCount).getD 0 + 1))) ∧
    (off host = none → isHostOnline off now host = true) ∧
    (isHostOnline (markHostOnline off host) now host = true) ∧
    (isHostOnline off now host = false →
      (∀ (α : Type) (cfg : ApiCfg) (opts : FetchOpts) (path key : String)
        (c : Cache α) (resp : NetResult α),
        fetchNetworkModel cfg opts host path key c off now resp =
          ⟨.error (.domainOffline host), c, off, false, none⟩) ∧
      (∀ (α : Type) (path : String) (tms : Option Nat) (r : NetResult α),
        fetchWithCredentialModel host path off now tms r =
          (.error (.domainOffline host), off, none)) ∧
      (∀ (path : String) (tms : Option Nat) (r : BlobResult),
        fetchWithCredentialBlobModel host path off now tms r =
          (.error (.domainOffline host), off, none))) := by
  refine ⟨?_, ?_, ?_, ?_⟩
  · simp [isHostOnline, markHostOffline]
  · intro h
    simp [isHostOnline, h]
  · simp [isHostOnline, markHostOnline]
  · intro h
    refine ⟨fun α cfg opts path key c resp => ?_, fun α path tms r => ?_,
      fun path tms r => ?_⟩
    · simp [fetchNetworkModel, h]
    · simp [fetchWithCredentialModel, h]
    · simp [fetchWithCredentialBlobModel, h]

/-- Witness for C4 at a concrete input: a fresh host marked offline at
time 0 with fail count 1 is still offline at 600 ms (threshold 750 ms)
and all three fetch-engine routes against it settle as DomainOffline
with no request. -/
theorem claim_C4_liveness_witness :
    isHostOnline (markHostOffline (fun _ => none) 0 "h") 600 "h" = false ∧
    fetchNetworkModel {} {} "h" "/p" "k" (fun _ => (none : Option (Entry Nat)))
      (markHostOffline (fun _ => none) 0 "h") 600 (.http 200 ⟨7, "ok", ""⟩) =
      ⟨.error (.domainOffline "h"), fun _ => none, markHostOffline (fun _ => none) 0 "h",
        false, none⟩ ∧
    fetchWithCredentialModel "h" "/p" (markHostOffline (fun _ => none) 0 "h") 600 none
      (.http 200 (⟨7, "ok", ""⟩ : ApiResp Nat)) =
      (.error (.domainOffline "h"), markHostOffline (fun _ => none) 0 "h", none) ∧
    fetchWithCredentialBlobModel "h" "/p" (markHostOffline (fun _ => none) 0 "h") 600 none
      (.http 200 [1, 2, 3]) =
      (.error (.domainOffline "h"), markHostOffline (fun _ => none) 0 "h", none) := by
  have hoff : isHostOnline (markHostOffline (fun _ => none) 0 "h") 600 "h" = false := by
    refine (claim_C4_liveness (fun _ => none) "h" 0 600).1.mpr ?_
    norm_num [offlineThreshold]
  have h4 := (claim_C4_liveness (markHostOffline (fun _ => none) 0 "h") "h" 0 600).2.2.2 hoff
  exact ⟨hoff, h4.1 Nat {} {} "/p" "k" (fun _ => none) (.http 200 ⟨7, "ok", ""⟩),
    h4.2.1 Nat "/p" none (.http 200 ⟨7, "ok", ""⟩),
    h4.2.2 "/p" none (.http 200 [1, 2, 3])⟩

/-! ## C2: negative caching -/

/-- C2 counterexample: a negative entry written at time 0 is read again at
1000 ms, well within the claimed 300-second window, in the default mode;
the claim predicts NotFound without a network call, but the code compares
the millisecond age against negativeCacheTTL = 300 directly, so the entry
is already expired: the read issues a network request and succeeds. -/
theorem claim_C2_counterexample :
    (fetchWithCacheRun {} {} "h" "/p" "k"
        (fun k => if k = "k" then some (⟨none, 0⟩ : Entry Nat) else none)
        (fun _ => none) 1000 (.http 200 ⟨7, "ok", ""⟩)).networkCalled = true ∧
    (fetchWithCacheRun {} {} "h" "/p" "k"
        (fun k => if k = "k" then some (⟨none, 0⟩ : Entry Nat) else none)
        (fun _ => none) 1000 (.http 200 ⟨7, "ok", ""⟩)).result = .ok (some 7) :=
  ⟨rfl, rfl⟩

/-- C2 amended: a 404 on the cached route writes the negative entry
stamped now; a default-mode read finding a negative entry younger than
negativeCacheTTL milliseconds (default 300, i.e. 300 ms rather than the
claimed 300 s) serves null without a network call, raising NotFound
upstream; once the entry is at least negativeCacheTTL milliseconds old
the read goes back to the network. -/
theorem claim_C2_negative_ttl_ms {α : Type} (cfg : ApiCfg) (host path key : String)
    (c : Cache α) (off : OffStore) (t0 now : Nat) (resp : NetResult α) :
    (∀ (opts : FetchOpts) (b : ApiResp α), isHostOnline off now host = true →
      (fetchNetworkModel cfg opts host path key c off now (.http 404 b)).cache key =
        some ⟨none, now⟩) ∧
    (c key = some ⟨none, t0⟩ →
      (((now : ℤ) - (t0 : ℤ) < (cfg.negativeCacheTTL : ℤ)) →
        (fetchWithCacheRun cfg {} host path key c off now resp).result = .ok none ∧
        (fetchWithCacheRun cfg {} host path key c off now resp).networkCalled = false ∧
        nullToNotFound (fetchWithCacheRun cfg {} host path key c off now resp).result =
          .error .notFound) ∧
      (¬((now : ℤ) - (t0 : ℤ) < (cfg.negativeCacheTTL : ℤ)) →
        isHostOnline off now host = true →
        (fetchWithCacheRun cfg {} host path key c off now resp).networkCalled = true)) := by
  refine ⟨?_, fun hc => ⟨fun hlt => ?_, fun hge hon => ?_⟩⟩
  · intro opts b hon
    simp [fetchNetworkModel, hon, resOk, setEntry]
  · simp [fetchWithCacheRun, cacheLookup, ttlFor, ageLt, hc, hlt, nullToNotFound]
  · simp only [fetchWithCacheRun, cacheLookup, ttlFor, ageLt, hc]
    simp [hge, fetchNetworkModel_online_networkCalled cfg {} host path key c off now resp hon]

/-- Witness for C2 amended: a negative entry stamped at 0 read at 100 ms
(inside the 300 ms window) is served as NotFound without network, and a
404 write produces the negative entry stamped now. -/
theorem claim_C2_negative_ttl_ms_witness :
    ((fun k => if k = "k" then some (⟨none, 0⟩ : Entry Nat) else none) "k" =
      some (⟨none, 0⟩ : Entry Nat)) ∧
    ((100 : ℤ) - (0 : ℤ) < ((({} : ApiCfg).negativeCacheTTL : Nat) : ℤ)) ∧
    (fetchWithCacheRun {} {} "h" "/p" "k"
        (fun k => if k = "k" then some (⟨none, 0⟩ : Entry Nat) else none)
        (fun _ => none) 100 (.http 200 ⟨7, "ok", ""⟩)).result = .ok none ∧
    (fetchWithCacheRun {} {} "h" "/p" "k"
        (fun k => if k = "k" then some (⟨none, 0⟩ : Entry Nat) else none)
        (fun _ => none) 100 (.http 200 ⟨7, "ok", ""⟩)).networkCalled = false ∧
    (fetchNetworkModel {} {} "h" "/p" "k"
        (fun k => if k = "k" then some (⟨none, 0⟩ : Entry Nat) else none)
        (fun _ => none) 100 (.http 404 ⟨7, "err", "gone"⟩)).cache "k" =
      some ⟨none, 100⟩ := by
  have h := claim_C2_negative_ttl_ms ({} : ApiCfg) "h" "/p" "k"
    (fun k => if k = "k" then some (⟨none, 0⟩ : Entry Nat) else none)
    (fun _ => none) 0 100 (.http 200 ⟨7, "ok", ""⟩)
  have h2 := (h.2 rfl).1 (by decide)
  exact ⟨rfl, by decide, h2.1, h2.2.1, h.1 {} ⟨7, "err", "gone"⟩ rfl⟩

/-! ## C10: the 404 path writes a negative entry in every cache mode -/

/-- C10: whatever the requested cache mode (opts is arbitrary, including
no-cache and negative-only), a 404 network response writes the negative
entry stamped now under the cache key, leaves the liveness store
untouched (in particular does not mark the host online), and settles as
null; a subsequent default-mode read within negativeCacheTTL milliseconds
observes the negative entry and raises NotFound without a network call. -/
theorem claim_C10_404_negative_write {α : Type} (cfg : ApiCfg) (opts : FetchOpts)
    (host path key : String) (c : Cache α) (off : OffStore) (now : Nat) (b : ApiResp α)
    (hon : isHostOnline off now host = true) :
    (fetchNetworkModel cfg opts host path key c off now (.http 404 b)).cache key =
      some ⟨none, now⟩ ∧
    (fetchNetworkModel cfg opts host path key c off now (.http 404 b)).off = off ∧
    (fetchNetworkModel cfg opts host path key c off now (.http 404 b)).result = .ok none ∧
    (∀ (now2 : Nat) (resp2 : NetResult α) (off2 : OffStore),
      ((now2 : ℤ) - (now : ℤ) < (cfg.negativeCacheTTL : ℤ)) →
      (fetchWithCacheRun cfg {} host path key
          (fetchNetworkModel cfg opts host path key c off now (.http 404 b)).cache
          off2 now2 resp2).networkCalled = false ∧
      nullToNotFound (fetchWithCacheRun cfg {} host path key
          (fetchNetworkModel cfg opts host path key c off now (.http 404 b)).cache
          off2 now2 resp2).result = .error .notFound) := by
  have hcache : (fetchNetworkModel cfg opts host path key c off now (.http 404 b)).cache =
      setEntry c key none now := by
    simp [fetchNetworkModel, hon, resOk]
  refine ⟨?_, ?_, ?_, ?_⟩
  · simp [hcache, setEntry]
  · simp [fetchNetworkModel, hon, resOk]
  · simp [fetchNetworkModel, hon, resOk]
  · intro now2 resp2 off2 hlt
    rw [hcache]
    constructor
    · simp [fetchWithCacheRun, cacheLookup, ttlFor, ageLt, setEntry, hlt]
    · simp [fetchWithCacheRun, cacheLookup, ttlFor, ageLt, setEntry, hlt, nullToNotFound]

/-- Witness for C10 with the caller opted out via no-cache: the 404 still
writes the negative entry, and a default-mode read 10 ms later raises
NotFound without network. -/
theorem claim_C10_404_negative_write_witness :
    isHostOnline (fun _ => none) 50 "h" = true ∧
    (fetchNetworkModel {} { cache := some CacheMode.noCache } "h" "/p" "k"
        (fun _ => (none : Option (Entry Nat))) (fun _ => none) 50
        (.http 404 ⟨7, "err", "gone"⟩)).cache "k" = some ⟨none, 50⟩ ∧
    ((60 : ℤ) - (50 : ℤ) < ((({} : ApiCfg).negativeCacheTTL : Nat) : ℤ)) ∧
    nullToNotFound (fetchWithCacheRun {} {} "h" "/p" "k"
        (fetchNetworkModel {} { cache := some CacheMode.noCache } "h" "/p" "k"
          (fun _ => (none : Option (Entry Nat))) (fun _ => none) 50
          (.http 404 ⟨7, "err", "gone"⟩)).cache
        (fun _ => none) 60 (.http 200 ⟨7, "ok", ""⟩)).result = .error .notFound := by
  have h := claim_C10_404_negative_write ({} : ApiCfg) { cache := some CacheMode.noCache }
    "h" "/p" "k" (fun _ => (none : Option (Entry Nat))) (fun _ => none) 50
    ⟨7, "err", "gone"⟩ rfl
  exact ⟨rfl, h.1, by decide,
    (h.2.2.2 60 (.http 200 ⟨7, "ok", ""⟩) (fun _ => none) (by decide)).2⟩

/-- A 2xx response with an ok envelope: mark the host online, write the
content unless negative-only, settle with the content. -/
theorem fetchNetworkModel_success {α : Type} (cfg : ApiCfg) (opts : FetchOpts)
    (host path key : String) (c : Cache α) (off : OffStore) (now status : Nat)
    (b : ApiResp α) (hon : isHostOnline off now host = true)
    (hok : resOk status = true) (hsok : b.status = "ok") :
    fetchNetworkModel cfg opts host path key c off now (.http status b) =
      ⟨.ok (some b.content),
       (if opts.cache = some CacheMode.negativeOnly then c
        else setEntry c key (some b.content) now),
       markHostOnline off host, true,
       some (mkTimedRequest ("https://" ++ host ++ path) opts.timeoutms)⟩ := by
  have h1 : 200 ≤ status ∧ status ≤ 299 := by simpa [resOk] using hok
  have h403 : ¬(status = 403) := by omega
  have h50x : ¬(status ∈ [502, 503, 504]) := by
    intro hmem
    simp at hmem
    omega
  simp [fetchNetworkModel, hon, hok, h403, h50x, hsok]

/-! ## C3: stale-while-revalidate -/

/-- C3 counterexample: the claim's own scenario. The cache holds the value
1 under message:m1 stamped at 0 with TTL 5000; getMessage at 10000 finds
it stale, returns it synchronously through the SWR branch, and the
revalidating fetch completes with the fresh value 2 — but getMessage
forces the negative-only mode, so the completed fetch does not write the
fresh value: the entry is unchanged, and the follow-up call at 10001
issues another network request and again returns the old value 1. -/
theorem claim_C3_counterexample :
    (getMessageRun {} { ttl := some 5000 } "h" "m1"
        (fun k => if k = "message:m1" then some (⟨some 1, 0⟩ : Entry Nat) else none)
        (fun _ => none) 10000 (.http 200 ⟨2, "ok", ""⟩)).result = .ok (some 1) ∧
    (getMessageRun {} { ttl := some 5000 } "h" "m1"
        (fun k => if k = "message:m1" then some (⟨some 1, 0⟩ : Entry Nat) else none)
        (fun _ => none) 10000 (.http 200 ⟨2, "ok", ""⟩)).swr = true ∧
    (getMessageRun {} { ttl := some 5000 } "h" "m1"
        (fun k => if k = "message:m1" then some (⟨some 1, 0⟩ : Entry Nat) else none)
        (fun _ => none) 10000 (.http 200 ⟨2, "ok", ""⟩)).networkCalled = true ∧
    (getMessageRun {} { ttl := some 5000 } "h" "m1"
        (fun k => if k = "message:m1" then some (⟨some 1, 0⟩ : Entry Nat) else none)
        (fun _ => none) 10000 (.http 200 ⟨2, "ok", ""⟩)).cache "message:m1" =
      some ⟨some 1, 0⟩ ∧
    (getMessageRun {} { ttl := some 5000 } "h" "m1"
        (getMessageRun {} { ttl := some 5000 } "h" "m1"
          (fun k => if k = "message:m1" then some (⟨some 1, 0⟩ : Entry Nat) else none)
          (fun _ => none) 10000 (.http 200 ⟨2, "ok", ""⟩)).cache
        (fun _ => none) 10001 (.http 200 ⟨2, "ok", ""⟩)).networkCalled = true ∧
    (getMessageRun {} { ttl := some 5000 } "h" "m1"
        (getMessageRun {} { ttl := some 5000 } "h" "m1"
          (fun k => if k = "message:m1" then some (⟨some 1, 0⟩ : Entry Nat) else none)
          (fun _ => none) 10000 (.http 200 ⟨2, "ok", ""⟩)).cache
        (fun _ => none) 10001 (.http 200 ⟨2, "ok", ""⟩)).result = .ok (some 1) :=
  ⟨rfl, rfl, rfl, rfl, rfl, rfl⟩

/-- C3 amended: a read whose lookup retains a stale positive value serves
it synchronously (swr) while the revalidating fetch runs; when the fetch
succeeds, the fresh value is written so that a sufficiently fresh
follow-up default-mode read returns it without network — unless the cache
mode is negative-only (as forced by getMessage), in which case the
completed fetch leaves the cache unchanged. -/
theorem claim_C3_swr_revalidate {α : Type} (cfg : ApiCfg) (opts : FetchOpts)
    (host path key : String) (c : Cache α) (off : OffStore) (now : Nat) (v : α)
    (resp : NetResult α)
    (hl : cacheLookup cfg opts c key now = .fetch (some v)) :
    (fetchWithCacheRun cfg opts host path key c off now resp).result = .ok (some v) ∧
    (fetchWithCacheRun cfg opts host path key c off now resp).swr = true ∧
    (isHostOnline off now host = true →
      (fetchWithCacheRun cfg opts host path key c off now resp).networkCalled = true) ∧
    (∀ (status : Nat) (b : ApiResp α), resp = .http status b → resOk status = true →
      b.status = "ok" → isHostOnline off now host = true →
      (opts.cache ≠ some CacheMode.negativeOnly →
        (fetchWithCacheRun cfg opts host path key c off now resp).cache key =
          some ⟨some b.content, now⟩ ∧
        (∀ (now2 : Nat) (off2 : OffStore) (resp2 : NetResult α) (opts2 : FetchOpts),
          opts2.cache = none →
          ageLt ((now2 : ℤ) - (now : ℤ)) (ttlFor cfg opts2 (some b.content)) = true →
          (fetchWithCacheRun cfg opts2 host path key
              (fetchWithCacheRun cfg opts host path key c off now resp).cache
              off2 now2 resp2).result = .ok (some b.content) ∧
          (fetchWithCacheRun cfg opts2 host path key
              (fetchWithCacheRun cfg opts host path key c off now resp).cache
              off2 now2 resp2).networkCalled = false)) ∧
      (opts.cache = some CacheMode.negativeOnly →
        (fetchWithCacheRun cfg opts host path key c off now resp).cache = c)) := by
  refine ⟨by simp [fetchWithCacheRun, hl], by simp [fetchWithCacheRun, hl], ?_, ?_⟩
  · intro hon
    simp [fetchWithCacheRun, hl,
      fetchNetworkModel_online_networkCalled cfg opts host path key c off now resp hon]
  · intro status b hresp hok hsok hon
    subst hresp
    have hsucc := fetchNetworkModel_success cfg opts host path key c off now status b
      hon hok hsok
    constructor
    · intro hneg
      have hcache : (fetchWithCacheRun cfg opts host path key c off now
          (.http status b)).cache = setEntry c key (some b.content) now := by
        simp [fetchWithCacheRun, hl, hsucc, hneg]
      refine ⟨by simp [hcache, setEntry], ?_⟩
      intro now2 off2 resp2 opts2 h2c hfresh
      rw [hcache]
      constructor
      · simp [fetchWithCacheRun, cacheLookup, setEntry, h2c, hfresh]
      · simp [fetchWithCacheRun, cacheLookup, setEntry, h2c, hfresh]
    · intro hneg
      simp [fetchWithCacheRun, hl, hsucc, hneg]

/-- Witness for C3 amended in the default mode (not negative-only): the
stale value 1 is served synchronously, the revalidation writes 2, and the
follow-up read at 10001 returns 2 without network. -/
theorem claim_C3_swr_revalidate_witness :
    cacheLookup {} { ttl := some 5000 }
      (fun k => if k = "k" then some (⟨some 1, 0⟩ : Entry Nat) else none) "k" 10000 =
      .fetch (some 1) ∧
    (fetchWithCacheRun {} { ttl := some 5000 } "h" "/p" "k"
        (fun k => if k = "k" then some (⟨some 1, 0⟩ : Entry Nat) else none)
        (fun _ => none) 10000 (.http 200 ⟨2, "ok", ""⟩)).result = .ok (some 1) ∧
    (fetchWithCacheRun {} { ttl := some 5000 } "h" "/p" "k"
        (fun k => if k = "k" then some (⟨some 1, 0⟩ : Entry Nat) else none)
        (fun _ => none) 10000 (.http 200 ⟨2, "ok", ""⟩)).cache "k" =
      some ⟨some 2, 10000⟩ ∧
    (fetchWithCacheRun {} {} "h" "/p" "k"
        (fetchWithCacheRun {} { ttl := some 5000 } "h" "/p" "k"
          (fun k => if k = "k" then some (⟨some 1, 0⟩ : Entry Nat) else none)
          (fun _ => none) 10000 (.http 200 ⟨2, "ok", ""⟩)).cache
        (fun _ => none) 10001 (.http 200 ⟨9, "ok", ""⟩)).result = .ok (some 2) ∧
    (fetchWithCacheRun {} {} "h" "/p" "k"
        (fetchWithCacheRun {} { ttl := some 5000 } "h" "/p" "k"
          (fun k => if k = "k" then some (⟨some 1, 0⟩ : Entry Nat) else none)
          (fun _ => none) 10000 (.http 200 ⟨2, "ok", ""⟩)).cache
        (fun _ => none) 10001 (.http 200 ⟨9, "ok", ""⟩)).networkCalled = false := by
  have h := claim_C3_swr_revalidate ({} : ApiCfg) { ttl := some 5000 } "h" "/p" "k"
    (fun k => if k = "k" then some (⟨some 1, 0⟩ : Entry Nat) else none)
    (fun _ => none) 10000 1 (.http 200 ⟨2, "ok", ""⟩) rfl
  have h4 := (h.2.2.2 200 ⟨2, "ok", ""⟩ rfl rfl rfl rfl).1 (by decide)
  have hf := h4.2 10001 (fun _ => none) (.http 200 ⟨9, "ok", ""⟩) {} rfl rfl
  exact ⟨rfl, h.1, h4.1, hf.1, hf.2⟩

/-! ## C6: credentialed JSON route and the envelope status -/

/-- C6 counterexample: a 2xx response whose envelope status is the string
error is returned by fetchWithCredential as a success carrying that
envelope; no Application error is raised. -/
theorem claim_C6_counterexample :
    (fetchWithCredentialModel "h" "/p" (fun _ => none) 0 none
        (.http 200 ⟨(5 : Nat), "error", "boom"⟩)).1 =
      .ok ⟨5, "error", "boom"⟩ :=
  rfl

/-- C6 amended: a 2xx response marks the host online and
fetchWithCredential returns the parsed envelope as-is, regardless of the
envelope status field; the status==ok check that fails with an
Application error carrying the envelope error exists only on the cached
route (fetchWithCache). -/
theorem claim_C6_credential_envelope {α : Type} (host path : String) (off : OffStore)
    (now : Nat) (tms : Option Nat) (status : Nat) (b : ApiResp α)
    (hon : isHostOnline off now host = true) (hok : resOk status = true) :
    fetchWithCredentialModel host path off now tms (.http status b) =
      (.ok b, markHostOnline off host,
        some (mkTimedRequest ("https://" ++ host ++ path) tms)) ∧
    (∀ (cfg : ApiCfg) (opts : FetchOpts) (key : String) (c : Cache α),
      b.status ≠ "ok" →
      (fetchNetworkModel cfg opts host path key c off now (.http status b)).result =
        .error (.application b.error)) := by
  have h1 : 200 ≤ status ∧ status ≤ 299 := by simpa [resOk] using hok
  have h403 : ¬(status = 403) := by omega
  have h404 : ¬(status = 404) := by omega
  have h50x : ¬(status ∈ [502, 503, 504]) := by
    intro hmem
    simp at hmem
    omega
  constructor
  · simp [fetchWithCredentialModel, hon, hok, h403, h404, h50x]
  · intro cfg opts key c hsnok
    simp [fetchNetworkModel, hon, hok, h403, h50x, hsnok]

/-- Witness for C6 amended at status 200 with an error envelope: the
credentialed route succeeds with the envelope while the cached route
raises the Application error. -/
theorem claim_C6_credential_envelope_witness :
    isHostOnline (fun _ => none) 0 "h" = true ∧ resOk 200 = true ∧
    fetchWithCredentialModel "h" "/p" (fun _ => none) 0 none
        (.http 200 ⟨(5 : Nat), "error", "boom"⟩) =
      (.ok ⟨5, "error", "boom"⟩, markHostOnline (fun _ => none) "h",
        some (mkTimedRequest ("https://" ++ "h" ++ "/p") none)) ∧
    (fetchNetworkModel {} {} "h" "/p" "k" (fun _ => (none : Option (Entry Nat)))
        (fun _ => none) 0 (.http 200 ⟨5, "error", "boom"⟩)).result =
      .error (.application "boom") := by
  have h := claim_C6_credential_envelope "h" "/p" (fun _ => none) 0 none 200
    ⟨(5 : Nat), "error", "boom"⟩ rfl rfl
  exact ⟨rfl, rfl, h.1, h.2 {} {} "k" (fun _ => none) (by decide)⟩

/-! ## C7: commit signer / keyID / signature -/

/-- C7 counterexample: a provider whose getCKID returns nothing (the
master-key provider) does not make the keyID field absent: commit only
ever assigns keyID, so a document that arrives with a keyID keeps it. -/
theorem claim_C7_counterexample :
    (commitDoc ⟨"con1signer", none⟩ ⟨none, some "rogue", ""⟩).keyID = some "rogue" ∧
    (commitDoc ⟨"con1signer", none⟩ ⟨none, some "rogue", ""⟩).keyID ≠ none := by
  decide

/-- C7 amended: commit overwrites signer with the provider CCID; when
getCKID returns a nonempty CKID the keyID field is overwritten with it;
when the CKID is not truthy the keyID field is left exactly as the input
document carried it (absent whenever the input omitted it, as every
library-built document does); and the POSTed signature is the provider
signature over exactly the serialized document text. -/
theorem claim_C7_commit_fields (serialize : CommitDoc → String) (sign : String → String)
    (p : ProviderIds) (d : CommitDoc) :
    (commitDoc p d).signer = some p.ccid ∧
    (∀ k : String, p.ckid = some k → k ≠ "" → (commitDoc p d).keyID = some k) ∧
    (truthy p.ckid = false → (commitDoc p d).keyID = d.keyID) ∧
    (commitRequest serialize sign p d).document = serialize (commitDoc p d) ∧
    (commitRequest serialize sign p d).signature =
      sign ((commitRequest serialize sign p d).document) := by
  refine ⟨?_, ?_, ?_, rfl, rfl⟩
  · unfold commitDoc
    split <;> rfl
  · intro k hk hne
    simp [commitDoc, truthy, hk, hne]
  · intro hf
    simp [commitDoc, hf]

/-- Witness for C7 amended: a sub-key provider stamps its CKID and the
signature is over the serialized text. -/
theorem claim_C7_commit_fields_witness :
    (⟨"con1a", some "cck1b"⟩ : ProviderIds).ckid = some "cck1b" ∧ "cck1b" ≠ "" ∧
    (commitDoc ⟨"con1a", some "cck1b"⟩ {}).signer = some "con1a" ∧
    (commitDoc ⟨"con1a", some "cck1b"⟩ {}).keyID = some "cck1b" ∧
    (commitRequest CommitDoc.payload (fun s => s ++ "!") ⟨"con1a", some "cck1b"⟩
        {}).signature =
      (fun s => s ++ "!") ((commitRequest CommitDoc.payload (fun s => s ++ "!")
        ⟨"con1a", some "cck1b"⟩ {}).document) := by
  have h := claim_C7_commit_fields CommitDoc.payload (fun s => s ++ "!")
    ⟨"con1a", some "cck1b"⟩ {}
  exact ⟨rfl, by decide, h.1, h.2.1 "cck1b" rfl (by decide), h.2.2.2.2⟩

/-! ## C9: per-request cooperative timeout -/

/-- C9: whenever the cached route issues its network request, the
request carries a cooperative-abort deadline equal to the caller
timeoutms when provided and to the 5000 ms default otherwise; the
credentialed route issues its request with the same rule; and
fetchWithTimeout itself arms the abort timer at the caller value or at
the default. -/
theorem claim_C9_timeout {α : Type} (cfg : ApiCfg) (opts : FetchOpts)
    (host path key : String) (c : Cache α) (off : OffStore) (now : Nat)
    (resp : NetResult α) :
    ((fetchNetworkModel cfg opts host path key c off now resp).networkCalled = true →
      (fetchNetworkModel cfg opts host path key c off now resp).request =
        some ⟨"https://" ++ host ++ path, opts.timeoutms.getD 5000⟩) ∧
    (∀ (tms : Option Nat) (r : NetResult α), isHostOnline off now host = true →
      (fetchWithCredentialModel host path off now tms r).2.2 =
        some ⟨"https://" ++ host ++ path, tms.getD 5000⟩) ∧
    (∀ url : String, mkTimedRequest url none = ⟨url, 5000⟩) ∧
    (∀ (url : String) (t : Nat), mkTimedRequest url (some t) = ⟨url, t⟩) := by
  refine ⟨?_, ?_, ?_, ?_⟩
  · intro hnet
    by_cases hon : isHostOnline off now host = false
    · simp [fetchNetworkModel, hon] at hnet
    · simp only [Bool.not_eq_false] at hon
      cases resp with
      | netError code =>
        simp only [fetchNetworkModel, hon]
        split
        · simp_all
        · split <;> simp [mkTimedRequest, defaultTimeoutMs]
      | http status body =>
        simp only [fetchNetworkModel, hon]
        split
        · simp_all
        · split_ifs <;> simp [mkTimedRequest, defaultTimeoutMs]
  · intro tms r hon
    cases r with
    | netError code =>
      simp only [fetchWithCredentialModel, hon]
      split
      · simp_all
      · split <;> simp [mkTimedRequest, defaultTimeoutMs]
    | http status body =>
      simp only [fetchWithCredentialModel, hon]
      split
      · simp_all
      · split_ifs <;> simp [mkTimedRequest, defaultTimeoutMs]
  · intro url
    simp [mkTimedRequest, defaultTimeoutMs]
  · intro url t
    simp [mkTimedRequest]

/-- Witness for C9: a caller timeout of 1234 ms is armed as given on the
cached route, and the credentialed route without a caller timeout arms
the 5000 ms default. -/
theorem claim_C9_timeout_witness :
    (fetchNetworkModel {} { timeoutms := some 1234 } "h" "/p" "k"
        (fun _ => (none : Option (Entry Nat))) (fun _ => none) 0
        (.http 200 ⟨7, "ok", ""⟩)).networkCalled = true ∧
    (fetchNetworkModel {} { timeoutms := some 1234 } "h" "/p" "k"
        (fun _ => (none : Option (Entry Nat))) (fun _ => none) 0
        (.http 200 ⟨7, "ok", ""⟩)).request =
      some ⟨"https://" ++ "h" ++ "/p", 1234⟩ ∧
    (fetchWithCredentialModel "h" "/p" (fun _ => none) 0 none
        (.http 200 (⟨7, "ok", ""⟩ : ApiResp Nat))).2.2 =
      some ⟨"https://" ++ "h" ++ "/p", 5000⟩ := by
  have h := claim_C9_timeout ({} : ApiCfg) { timeoutms := some 1234 } "h" "/p" "k"
    (fun _ => (none : Option (Entry Nat))) (fun _ => none) 0 (.http 200 ⟨7, "ok", ""⟩)
  exact ⟨rfl, h.1 rfl, h.2.1 none (.http 200 ⟨7, "ok", ""⟩) rfl⟩

/-! ## C1: in-flight request coalescing -/

/-- C1 counterexample: two concurrent fetchWithCache calls for the same
key, both past the cache lookup and the liveness gate. Each performs the
in-flight check before the other registers its request — possible because
the registration happens only after the auth-header await — so neither
joins: after the schedule two network requests for the same key are
simultaneously outstanding and each call owns its own request. -/
theorem claim_C1_counterexample :
    (coalRun (coalInit 2) [.run 0, .run 1, .run 0, .run 1]).pending = [0, 1] ∧
    (coalRun (coalInit 2) [.run 0, .run 1, .run 0, .run 1]).tasks =
      [.owner 0, .owner 1] ∧
    (coalRun (coalInit 2) [.run 0, .run 1, .run 0, .run 1]).pending.length = 2 := by
  decide

/-- C1 amended: a call whose in-flight check runs while a request is
registered for the key joins that pending request and starts nothing new
(the map, the pending requests and the id counter are untouched); the
registration however only happens at the launch step after the
auth-header await, so a check that runs before another call's launch step
misses it. -/
theorem claim_C1_inflight_join (c : CoalConf) (i r : Nat)
    (ht : c.tasks[i]? = some .checkInflight) (hr : c.inflight = some r) :
    coalStep c (.run i) = { c with tasks := c.tasks.set i (.joined r) } ∧
    (coalStep c (.run i)).pending = c.pending ∧
    (coalStep c (.run i)).nextId = c.nextId ∧
    (coalStep c (.run i)).inflight = c.inflight := by
  refine ⟨?_, ?_, ?_, ?_⟩ <;> simp [coalStep, ht, hr]

/-- Witness for C1 amended: a third call checking while request 5 is
registered joins it without launching. -/
theorem claim_C1_inflight_join_witness :
    (⟨[CoalPC.checkInflight], some 5, [5], 6⟩ : CoalConf).tasks[0]? =
      some .checkInflight ∧
    (⟨[CoalPC.checkInflight], some 5, [5], 6⟩ : CoalConf).inflight = some 5 ∧
    (coalStep ⟨[CoalPC.checkInflight], some 5, [5], 6⟩ (.run 0)).pending = [5] ∧
    (coalStep ⟨[CoalPC.checkInflight], some 5, [5], 6⟩ (.run 0)).tasks =
      [CoalPC.joined 5] := by
  have h := claim_C1_inflight_join ⟨[CoalPC.checkInflight], some 5, [5], 6⟩ 0 5 rfl rfl
  exact ⟨rfl, rfl, h.2.1, by rw [h.1]; rfl⟩

/-! ## C5: passport coalescing -/

/-- C5 counterexample: two getHeaders calls concurrent on a fresh
provider: each reads the unset passport and launches its own passport
request (the provider memoizes only the passport string written on
completion, there is no shared in-flight future), so the passport
endpoint is hit twice before the first success. -/
theorem claim_C5_counterexample :
    (passRun (passInit 2) [.run 0, .run 1]).hits = 2 ∧
    (passRun (passInit 2) [.run 0, .run 1]).pending = [0, 1] ∧
    (passRun (passInit 2) [.run 0, .run 1]).passport = none := by
  decide

/-- C5 amended: once a passport response has been delivered the passport
string is memoized, and every later getHeaders call that finds it truthy
(nonempty, as real passports are) returns it without a further passport
request; a getHeaders call that reads the passport before the first
delivery — or finds the falsy empty string — launches its own passport
request, so calls concurrent with the first fetch each hit the
endpoint. -/
theorem claim_C5_passport_memo (c : PassConf) (i r : Nat) (p content : String) :
    (c.tasks[i]? = some .start → c.passport = some p → p ≠ "" →
      passStep c (.run i) = { c with tasks := c.tasks.set i (.done p) }) ∧
    (c.tasks[i]? = some .start → c.passport = none →
      (passStep c (.run i)).hits = c.hits + 1 ∧
      (passStep c (.run i)).pending = c.pending ++ [c.hits]) ∧
    (c.tasks[i]? = some .start → c.passport = some "" →
      (passStep c (.run i)).hits = c.hits + 1) ∧
    (r ∈ c.pending → (passStep c (.deliver r content)).passport = some content ∧
      (passStep c (.deliver r content)).hits = c.hits) := by
  refine ⟨fun ht hp hne => ?_, fun ht hp => ?_, fun ht hp => ?_, fun hr => ?_⟩
  · simp [passStep, ht, hp, hne]
  · constructor <;> simp [passStep, ht, hp]
  · simp [passStep, ht, hp]
  · constructor <;> simp [passStep, hr]

/-- Witness for C5 amended: after a success stored a nonempty passport, a
later call is answered from memory with no new endpoint hit. -/
theorem claim_C5_passport_memo_witness :
    (⟨[PassPC.start], some "pp", [], 3⟩ : PassConf).tasks[0]? = some .start ∧
    (⟨[PassPC.start], some "pp", [], 3⟩ : PassConf).passport = some "pp" ∧
    ("pp" : String) ≠ "" ∧
    passStep ⟨[PassPC.start], some "pp", [], 3⟩ (.run 0) =
      ⟨[PassPC.done "pp"], some "pp", [], 3⟩ := by
  have h := (claim_C5_passport_memo ⟨[PassPC.start], some "pp", [], 3⟩ 0 0 "pp" "x").1
    rfl rfl (by decide)
  exact ⟨rfl, rfl, by decide, h⟩

/-! ## C8: resubscription on open -/

/-- C8: after any history of listen/unlisten calls and opens, the open
event makes the client send exactly one frame, a listen frame whose
channels are exactly the current keys of the subscriptions map — so the
timeline ids announced to the server coincide with the subscription keys
after every reconnect. -/
theorem claim_C8_open_resubscribes (s0 : SockState) (evs : List SockEvent) :
    sockRun s0 (evs ++ [.opened]) =
      ((sockRun s0 evs).1,
       (sockRun s0 evs).2 ++ [Frame.listen (subKeys (sockRun s0 evs).1)]) := by
  unfold sockRun
  rw [List.foldl_append]
  rfl

end NodeClient
